import Mathlib

/-!
Verification of the engagement-letter automation pipeline.

The development shallowly embeds the three Python modules of the repository
(`processing_data.py`, `generating_doc.py`, `main.py`):

* strings stay Lean `String`s, but every Python string primitive the code
  uses (`upper`, `lower`, `strip`, `split`, `in`, `str.replace`,
  `int(...)`, `''.join(filter(str.isdigit, ...))`) is re-modelled over
  `String.data : List Char` so that all definitions evaluate inside the
  kernel;
* dictionaries become association lists (`alookup` / `aset` / `dget`
  mirror `d[k]`, `d[k] = v`, `d.get(k, default)`);
* dates become day indices (`Nat`, days since an epoch that falls on a
  Monday, so a day `d` has weekday `d % 7`, Monday = 0 as in
  `datetime.weekday()`); `datetime.now(pacific)` and the naive
  `datetime.today()` become the two fields of a `Clock`;
* interactive `input()` calls become explicit arguments, or a `List
  String` standing for the sequence of console answers;
* code that can raise returns an `Option`.
-/

/-! ## Python string primitives -/

/-- Model of Python `str.upper()` (ASCII view of the data). -/
def pyUpper (s : String) : String := String.mk (s.data.map Char.toUpper)

/-- Model of Python `str.lower()`. -/
def pyLower (s : String) : String := String.mk (s.data.map Char.toLower)

/-- Model of Python `str.strip()`: drop whitespace from both ends. -/
def pyStrip (s : String) : String :=
  String.mk (((s.data.dropWhile Char.isWhitespace).reverse.dropWhile Char.isWhitespace).reverse)

/-- Model of Python `pat in s`: `pat` occurs as a contiguous substring. -/
def pyIn (pat s : String) : Bool := decide (pat.data <:+: s.data)

/-- Case-insensitive substring test: the behaviour of the pandas filters
`database[col].str.contains(x, case=False, na=False)` on the plain names
used by this program (no regex metacharacters). -/
def icontains (s pat : String) : Bool := pyIn (pyLower pat) (pyLower s)

/-- Split a character list at every occurrence of the separator character:
Python `s.split(' ')` (which keeps empty fields). -/
def splitChar (sep : Char) : List Char → List (List Char)
  | [] => [[]]
  | c :: rest =>
    match splitChar sep rest with
    | [] => if c = sep then [[], [c]] else [[c]]
    | p :: ps => if c = sep then [] :: p :: ps else (c :: p) :: ps

/-- Model of Python `s.split(' ')`. -/
def pySplitSpace (s : String) : List String :=
  (splitChar ' ' s.data).map String.mk

/-- Numeric value of a decimal digit string, most significant digit first. -/
def digitsVal : List Char → Nat → Nat
  | [], acc => acc
  | c :: cs, acc => digitsVal cs (acc * 10 + (c.toNat - 48))

/-- Model of Python `int(s)` restricted to the non-negative decimal strings
this program feeds it: `some` exactly on a non-empty all-digit string,
`none` models the `ValueError` raised on anything else. -/
def pyInt? (s : String) : Option Nat :=
  if s.data ≠ [] ∧ s.data.all Char.isDigit then some (digitsVal s.data 0) else none

/-- Model of `''.join(filter(str.isdigit, s))`: every digit character of
`s`, in order, with everything else removed. -/
def extractDigits (s : String) : String := String.mk (s.data.filter Char.isDigit)

/-! ## Dictionaries as association lists -/

/-- Lookup in an association list (Python `d[k]` / `k in d`). -/
def alookup : List (String × String) → String → Option String
  | [], _ => none
  | (k, v) :: rest, key => if k = key then some v else alookup rest key

/-- Model of the Python assignment `d[k] = v`: overwrite the existing
binding, or append a new one. -/
def aset : List (String × String) → String → String → List (String × String)
  | [], key, v => [(key, v)]
  | (k, w) :: rest, key, v =>
    if k = key then (k, v) :: rest else (k, w) :: aset rest key v

/-- Model of Python `d.get(k, default)`. -/
def dget (m : List (String × String)) (key dflt : String) : String :=
  (alookup m key).getD dflt

/-! ## Vendor resolver (`processing_data._autofill_vendor`, `main.autofill`) -/

/-- One row of the `Approved Appraisers.csv` vendor dataset: columns
`First, Last, Company, Email, Type` and the optional `Region`. -/
structure VendorRow where
  first : String
  last : String
  company : String
  email : String
  vtype : String
  region : Option String
deriving DecidableEq

/-- The canonical vendor sub-record `_autofill_vendor` returns on success. -/
structure VendorInfo where
  first_name : String
  last_name : String
  company : String
  email : String
  vtype : String
  region : String
deriving DecidableEq

/-- Reshaping of a matched row (`vendor.get('Region', 'N/A')` supplies the
default for the optional column). -/
def row_to_vendor (r : VendorRow) : VendorInfo :=
  ⟨r.first, r.last, r.company, r.email, r.vtype, r.region.getD "N/A"⟩

/-- `filter_by_type` of `main.py` and the `Type` filter opening
`_autofill_vendor`: keep the rows whose `Type` contains the requested
vendor type case-insensitively. -/
def filter_by_type (db : List VendorRow) (type_value : String) : List VendorRow :=
  db.filter (fun r => icontains r.vtype type_value)

/-- Rows of `m` whose `First` column contains `fn` case-insensitively. -/
def first_name_matches (m : List VendorRow) (fn : String) : List VendorRow :=
  m.filter (fun r => icontains r.first fn)

/-- Rows of `m` whose `Last` column contains `ln` case-insensitively. -/
def last_name_refined (m : List VendorRow) (ln : String) : List VendorRow :=
  m.filter (fun r => icontains r.last ln)

/-- Lookup core of `processing_data._autofill_vendor` (the path taken when
the operator's first answer is not the `'NA'` sentinel): `none` models
every `return _collect_vendor_manually()` fallback.  Phase 1 / Phase 2
letters look vendors up under the `Env` type.  The last-name question is
only asked on a multiple match; it is passed here up front. -/
def autofill_vendor_core (db : List VendorRow) (vendor_type first_name last_name : String) :
    Option VendorInfo :=
  let lookup_type :=
    if pyUpper vendor_type = "PHASE 1" ∨ pyUpper vendor_type = "PHASE 2" then "Env"
    else vendor_type
  let filtered := filter_by_type db lookup_type
  let fmatches := first_name_matches filtered first_name
  if fmatches.length = 0 then none
  else if fmatches.length = 1 then fmatches.head?.map row_to_vendor
  else
    let refined := last_name_refined fmatches last_name
    if refined.length = 0 then none
    else refined.head?.map row_to_vendor

/-- Lookup core of `main.autofill` (again, past the `'NA'` sentinel):
`none` models the two failure strings it returns (`'Nobody named ...'`
and `'Number of cases found: ...'`). -/
def autofill_main_core (db : List VendorRow) (type_value first last : String) :
    Option VendorRow :=
  let filtered0 := filter_by_type db type_value
  let filtered := first_name_matches filtered0 first
  if filtered.length = 1 then filtered.head?
  else if 1 < filtered.length then
    let refined := last_name_refined filtered last
    if refined.length = 1 then refined.head? else none
  else none

/-! ## Date engine (`main.date_builder`, `processing_data._calculate_dates`) -/

/-- The two instants a date computation can anchor on: the
timezone-aware `datetime.now(pytz.timezone('America/Los_Angeles'))` and
the naive local `datetime.today()`, both truncated to day indices. -/
structure Clock where
  nowPacific : Nat
  todayLocal : Nat
deriving DecidableEq

/-- The `while business_days > 0` loop shared by `date_builder` and
`_calculate_dates`: advance one calendar day at a time, and only a day
whose weekday is Monday–Friday (`d % 7 < 5`) decrements the counter.
`fuel` bounds the number of loop iterations; `businessLoop_spec` shows
any fuel of at least `3 * n + 2` reaches the loop's exit, so the fuel
`7 * n + 7` used by `addBusinessDays` is exact for the Python loop. -/
def businessLoop : Nat → Nat → Nat → Nat
  | 0, d, _ => d
  | fuel + 1, d, n =>
    if n = 0 then d
    else if (d + 1) % 7 < 5 then businessLoop fuel (d + 1) (n - 1)
    else businessLoop fuel (d + 1) n

/-- `n` business days strictly after day `start`. -/
def addBusinessDays (start n : Nat) : Nat := businessLoop (7 * n + 7) start n

/-- `main.date_builder`: returns `(current_date, delivery_date)` as day
indices (the `strftime` formatting is outside the model).  The
business-day branch walks forward from the Pacific-aware now; the weeks
and days branches add to the naive local `datetime.today()`. -/
def date_builder (c : Clock) (days weeks business_days : Nat) : Nat × Nat :=
  if 0 < business_days then
    (c.nowPacific, addBusinessDays c.nowPacific business_days)
  else if 0 < weeks then
    (c.nowPacific, c.todayLocal + 7 * weeks)
  else
    (c.nowPacific, c.todayLocal + days)

/-- A delivery-date value as it ends up in the record: a computed day,
the literal `"N/A"`, or free text such as `"2 to 4 days"`. -/
inductive Delivery where
  | onDate (d : Nat)
  | na
  | text (s : String)
deriving DecidableEq

/-- `current_date` / `delivery_date` as computed by `_calculate_dates`. -/
structure DatesResult where
  current_date : Nat
  delivery_date : Delivery
deriving DecidableEq

/-- `int(''.join(filter(str.isdigit, timeline)) or default)`: the digits
of the timeline concatenated and read as one number, or the branch
default when the timeline has no digit at all. -/
def pyIntDigits (timeline : String) (dflt : Nat) : Nat :=
  match (extractDigits timeline).data with
  | [] => dflt
  | ds => digitsVal ds 0

/-- `processing_data._calculate_dates`.  `stdin` carries the operator's
answers to `input()`; the secondary-appraisal branch returns before any
prompt, otherwise the head answer is the delivery timeline (stripped and
lowered, as in the source).  All arithmetic anchors on the Pacific-aware
now; the naive `todayLocal` is never read. -/
def calculate_dates (letter_type : String) (c : Clock) (stdin : List String) :
    DatesResult × List String :=
  if pyUpper letter_type = "SEC" then
    (⟨c.nowPacific, Delivery.na⟩, stdin)
  else
    let timeline := pyLower (pyStrip (stdin.headD ""))
    let rest := stdin.tail
    let delivery :=
      if pyIn "bd" timeline || pyIn "business" timeline then
        addBusinessDays c.nowPacific (pyIntDigits timeline 10)
      else if pyIn "week" timeline then
        c.nowPacific + 7 * pyIntDigits timeline 1
      else
        c.nowPacific + pyIntDigits timeline 7
    (⟨c.nowPacific, Delivery.onDate delivery⟩, rest)

/-- The duration parse inside `main.input_builder` (and its twin inside
`dual_input_builder`): `quantity = date_step.split(' ')[0]`,
`unit = date_step.split(' ')[1]`, then `int(quantity)` routed into
`date_builder`.  `none` models the `IndexError` on a one-word answer and
the `ValueError` on a non-numeric quantity. -/
def parse_date_step (c : Clock) (date_step : String) : Option (Nat × Nat) :=
  match pySplitSpace date_step with
  | quantity :: unit :: _ =>
    match pyInt? quantity with
    | some q =>
      if unit = "wks" then some (date_builder c 0 q 0)
      else if unit = "bds" then some (date_builder c 0 0 q)
      else some (date_builder c q 0 0)
    | none => none
  | _ => none

/-- The date/delivery slice of `main.input_builder`: for any letter type
other than the exact string `'Sec'` the operator is asked for a duration
(`date_step`) and the dates come from `date_builder`; for `'Sec'` no
duration is requested, today is the Pacific-aware now and the delivery
placeholder is the fixed text `'2 to 4 days'`. -/
def input_builder_dates (c : Clock) (letter_type : String) (date_step : String) :
    Option (Nat × Delivery) :=
  if letter_type ≠ "Sec" then
    (parse_date_step c date_step).map (fun p => (p.1, Delivery.onDate p.2))
  else
    some (c.nowPacific, Delivery.text "2 to 4 days")

example : autofill_vendor_core
    [⟨"Ann", "Smith", "C1", "a@x", "App", none⟩, ⟨"Anna", "Smithe", "C2", "b@x", "App", none⟩]
    "App" "ann" "smith" = some ⟨"Ann", "Smith", "C1", "a@x", "App", "N/A"⟩ := by decide

example : addBusinessDays 0 2 = 2 := by decide
example : addBusinessDays 3 2 = 7 := by decide
example : parse_date_step ⟨0, 0⟩ "soon" = none := by decide
example : parse_date_step ⟨0, 0⟩ "ten days" = none := by decide
example : (calculate_dates "App" ⟨0, 0⟩ ["2 weeks"]).1.delivery_date = Delivery.onDate 14 := by decide
example : (calculate_dates "App" ⟨0, 0⟩ [" 3 DAYS "]).1.delivery_date = Delivery.onDate 3 := by decide
example : (calculate_dates "sec" ⟨5, 9⟩ ["x"]).1.delivery_date = Delivery.na := by decide
example : pyIntDigits "2 bds and 4" 10 = 24 := by decide

/-! ## Template selector (`generating_doc._get_template_path`) -/

/-- The template file name chosen by `_get_template_path`: the if/elif
chain on the uppercased letter type, each branch forming
`f"{loan_type} - ... Engagement Letter.docx"`. -/
def templateName (loan_type letter_type : String) : String :=
  let lt := pyUpper loan_type
  let le := pyUpper letter_type
  if le = "APP" ∨ le = "APPRAISAL" then lt ++ " - Appraisal Engagement Letter.docx"
  else if le = "SEC" ∨ le = "SECONDARY" then lt ++ " - Appraisal Review Engagement Letter.docx"
  else if le = "ENV" ∨ le = "ENVIRONMENTAL" then lt ++ " - Environmental Engagement Letter.docx"
  else if le = "PHASE 1" then lt ++ " - Phase 1 Engagement Letter.docx"
  else if le = "PHASE 2" then lt ++ " - Phase 2 Engagement Letter.docx"
  else if le = "SFR" then lt ++ " - Appraisal Engagement Letter.docx"
  else lt ++ " - Environmental Engagement Letter.docx"

/-- `_get_template_path` itself (`os.path.join` modelled as `"/"`). -/
def get_template_path (loan_type letter_type template_dir : String) : String :=
  template_dir ++ "/" ++ templateName loan_type letter_type

/-- The letter-type suffix table as the specification states it, for
comparison with `templateName`: APP/APPRAISAL/SFR map to Appraisal,
SEC/SECONDARY to Appraisal Review, PHASE 1 / PHASE 2 to themselves, and
ENV/ENVIRONMENTAL together with every unrecognized letter type to
Environmental. -/
def letterSuffix (le : String) : String :=
  if le = "APP" ∨ le = "APPRAISAL" ∨ le = "SFR" then "Appraisal Engagement Letter"
  else if le = "SEC" ∨ le = "SECONDARY" then "Appraisal Review Engagement Letter"
  else if le = "PHASE 1" then "Phase 1 Engagement Letter"
  else if le = "PHASE 2" then "Phase 2 Engagement Letter"
  else "Environmental Engagement Letter"

/-! ## Placeholder mapping (`generating_doc._data_to_placeholders`) -/

/-- An engagement record as handed to the generator: the four sub-records
are dictionaries, `none` standing for a top-level key that is absent
altogether (`if "vendor" in data` guards in the source). -/
structure EngData where
  loan_type : String
  letter_type : String
  vendor : Option (List (String × String))
  dates : Option (List (String × String))
  loan : Option (List (String × String))
  property : Option (List (String × String))

/-- `_data_to_placeholders`: flatten a record into the sixteen
placeholder-token/value pairs.  Every value comes from `.get` with
default `""`, except `cdc_company` (default `"N/A"`) and `item_to_send`
(default `"TBD"`).  The placeholder tokens are the source's
`"{{...}}"` markers (braces written as `\x7b`/`\x7d`). -/
def data_to_placeholders (data : EngData) : List (String × String) :=
  (match data.vendor with
   | none => []
   | some vendor =>
     [("\x7b\x7bcontact_first_name\x7d\x7d", dget vendor "first_name" ""),
      ("\x7b\x7bcontact_last_name\x7d\x7d", dget vendor "last_name" ""),
      ("\x7b\x7bcompany_name\x7d\x7d", dget vendor "company" ""),
      ("\x7b\x7bcontact_email\x7d\x7d", dget vendor "email" "")]) ++
  (match data.dates with
   | none => []
   | some dates =>
     [("\x7b\x7bdate\x7d\x7d", dget dates "current_date" ""),
      ("\x7b\x7bdelivery_date\x7d\x7d", dget dates "delivery_date" "")]) ++
  (match data.loan with
   | none => []
   | some loan =>
     [("\x7b\x7bloan_name\x7d\x7d", dget loan "loan_name" ""),
      ("\x7b\x7bloan_number\x7d\x7d", dget loan "loan_number" ""),
      ("\x7b\x7bcdc_company\x7d\x7d", dget loan "cdc_company" "N/A")]) ++
  (match data.property with
   | none => []
   | some property =>
     [("\x7b\x7bproperty_address\x7d\x7d", dget property "property_address" ""),
      ("\x7b\x7bproperty_type\x7d\x7d", dget property "property_type" ""),
      ("\x7b\x7bsqft\x7d\x7d", dget property "sqft" ""),
      ("\x7b\x7bfee\x7d\x7d", dget property "fee" ""),
      ("\x7b\x7bproperty_contact_name\x7d\x7d", dget property "property_contact_name" ""),
      ("\x7b\x7bproperty_contact_phone\x7d\x7d", dget property "property_contact_phone" ""),
      ("\x7b\x7bitem_to_send\x7d\x7d", dget property "item_to_send" "TBD")])

/-! ## Dual generation (`generating_doc.generate_dual_engagement_letters`) -/

/-- The dual record built by `collect_dual_engagement_data`: per-side
vendor and dates dictionaries plus the shared loan and property. -/
structure DualData where
  loan_type : String
  app_vendor : List (String × String)
  app_dates : List (String × String)
  env_vendor : List (String × String)
  env_dates : List (String × String)
  shared_loan : List (String × String)
  shared_property : List (String × String)

/-- What `generate_dual_engagement_letters` leaves behind, as far as the
record data is concerned: the placeholder mapping each of the two
`generate_engagement_letter` calls substituted from, and the final state
of the property dictionary.  In the source `app_data["property"]`,
`env_data["property"]` and `dual_data["shared"]["property"]` are one and
the same object, so the model threads a single dictionary through both
fee assignments; `shared_property_final` is that object's state after
both letters are generated. -/
structure DualGenOut where
  app_placeholders : List (String × String)
  env_placeholders : List (String × String)
  shared_property_final : List (String × String)

/-- The two `if "fee" in ...dates: ...["property"]["fee"] = ...` steps:
copy the side's fee into the (shared) property dictionary when present. -/
def merge_fee (dates prop : List (String × String)) : List (String × String) :=
  match alookup dates "fee" with
  | some f => aset prop "fee" f
  | none => prop

/-- `generate_dual_engagement_letters`, data part: build `app_data`
(letter type APP, shared loan/property), merge `dates["fee"]` into the
shared property if present, generate the appraisal letter; then the same
for `env_data` (letter type ENV) and the environmental letter.  Template
loading and file output are outside the model. -/
def generate_dual_engagement_letters (d : DualData) : DualGenOut :=
  let prop_after_app := merge_fee d.app_dates d.shared_property
  let app_data : EngData :=
    ⟨d.loan_type, "APP", some d.app_vendor, some d.app_dates, some d.shared_loan,
      some prop_after_app⟩
  let app_ph := data_to_placeholders app_data
  let prop_after_env := merge_fee d.env_dates prop_after_app
  let env_data : EngData :=
    ⟨d.loan_type, "ENV", some d.env_vendor, some d.env_dates, some d.shared_loan,
      some prop_after_env⟩
  let env_ph := data_to_placeholders env_data
  ⟨app_ph, env_ph, prop_after_env⟩

example : templateName "7a" "Phase 1" = "7A - Phase 1 Engagement Letter.docx" := by decide
example : templateName "504" "Unknown" = "504 - Environmental Engagement Letter.docx" := by decide

/-! ## Substitution engine (`generating_doc._replace_placeholders_in_document`) -/

/-- Paragraph text, as a character list. -/
abbrev PText := List Char

/-- Worker for `pyReplace`: the fuel only bounds the recursion depth (one
unit per character consumed) so that the definition is structural and
evaluates in the kernel; `pyReplaceAux_spec` is proved for any
sufficient fuel. -/
def pyReplaceAux : Nat → PText → PText → PText → PText
  | 0, s, _, _ => s
  | fuel + 1, s, pat, rep =>
    match s with
    | [] => []
    | c :: rest =>
      if pat ≠ [] ∧ pat <+: (c :: rest) then
        rep ++ pyReplaceAux fuel ((c :: rest).drop pat.length) pat rep
      else
        c :: pyReplaceAux fuel rest pat rep

/-- Model of Python `s.replace(pat, rep)` for a non-empty pattern: scan
left to right, replacing each non-overlapping occurrence of `pat` (an
empty pattern falls through to the identity; the program's placeholder
tokens are never empty). -/
def pyReplace (s pat rep : PText) : PText := pyReplaceAux s.length s pat rep

/-- The pieces of a string between consecutive separators, glued back
with `sep`: `joinWith sep parts` is `sep.join(parts)` in Python terms. -/
def joinWith (sep : PText) : List PText → PText
  | [] => []
  | [p] => p
  | p :: q :: ps => p ++ sep ++ joinWith sep (q :: ps)

/-- The inner double loop applied to one paragraph's text: for each
`(placeholder, replacement)` pair in order, `if placeholder in text:
text = text.replace(placeholder, replacement)`. -/
def substPara (m : List (PText × PText)) (s : PText) : PText :=
  m.foldl (fun t pr => if pr.1 <:+: t then pyReplace t pr.1 pr.2 else t) s

/-- One section of the document: its header paragraphs, the first-page
header when the document distinguishes one (`hasattr` guard in the
source), and its footer paragraphs. -/
structure DocSection where
  header : List PText
  firstPageHeader : Option (List PText)
  footer : List PText

/-- A document as the substitution engine sees it: body paragraphs,
sections, and tables (a table is rows of cells of paragraphs). -/
structure Doc where
  paragraphs : List PText
  sections : List DocSection
  tables : List (List (List (List PText)))

/-- `_replace_placeholders_in_document`: the four passes of the source in
order — body paragraphs, then each section's header and first-page
header, then each section's footer, then every table cell's paragraphs —
each paragraph's text fully substituted in place. -/
def replace_placeholders_in_document (doc : Doc) (m : List (PText × PText)) : Doc :=
  let doc1 : Doc := { doc with paragraphs := doc.paragraphs.map (substPara m) }
  let doc2 : Doc := { doc1 with
    sections := doc1.sections.map (fun sec : DocSection =>
      { sec with
        header := sec.header.map (substPara m),
        firstPageHeader := sec.firstPageHeader.map (fun ps => ps.map (substPara m)) }) }
  let doc3 : Doc := { doc2 with
    sections := doc2.sections.map (fun sec : DocSection =>
      { sec with footer := sec.footer.map (substPara m) }) }
  { doc3 with
    tables := doc3.tables.map (fun t =>
      t.map (fun row => row.map (fun cell => cell.map (substPara m)))) }

example : pyReplace "a {{x}} b {{x}}".data "{{x}}".data "V".data = "a V b V".data := by decide
example : substPara [("{{x}}".data, "V".data), ("{{y}}".data, "W".data)]
    "{{x}}+{{y}}+{{z}}".data = "V+W+{{z}}".data := by decide

/-! ## Supporting lemmas -/

lemma businessLoop_zero_n (fuel d : Nat) : businessLoop fuel d 0 = d := by
  cases fuel <;> simp [businessLoop]

/-- Fuel slack still needed before the next business day is reached from
day `d`: two further weekend steps when tomorrow is Saturday, one when
tomorrow is Sunday, none otherwise. -/
def wslack (d : Nat) : Nat :=
  if (d + 1) % 7 = 5 then 2 else if (d + 1) % 7 = 6 then 1 else 0

lemma wslack_le (d : Nat) : wslack d ≤ 2 := by
  unfold wslack; split_ifs <;> omega

lemma Ioc_insert_bottom {d r : Nat} (h : d < r) :
    Finset.Ioc d r = insert (d + 1) (Finset.Ioc (d + 1) r) := by
  ext x; simp only [Finset.mem_Ioc, Finset.mem_insert]; omega

/-- Invariant of the business-day loop: with enough fuel the result is a
strictly later day, lands on a weekday, and the half-open interval it
crosses contains exactly `n` weekdays. -/
lemma businessLoop_spec : ∀ (fuel d n : Nat), 0 < n → 3 * n + wslack d ≤ fuel →
    d < businessLoop fuel d n ∧ businessLoop fuel d n % 7 < 5 ∧
    ((Finset.Ioc d (businessLoop fuel d n)).filter (fun x => x % 7 < 5)).card = n := by
  intro fuel
  induction fuel with
  | zero =>
    intro d n hn hf
    exfalso; omega
  | succ f ih =>
    intro d n hn hf
    have hn0 : ¬ n = 0 := by omega
    by_cases hw : (d + 1) % 7 < 5
    · have hwd0 : wslack d = 0 := by
        unfold wslack; split_ifs <;> omega
      by_cases h1 : n = 1
      · subst h1
        have hstep : businessLoop (f + 1) d 1 = d + 1 := by
          simp [businessLoop, hw, businessLoop_zero_n]
        rw [hstep]
        refine ⟨Nat.lt_succ_self d, hw, ?_⟩
        rw [Ioc_insert_bottom (Nat.lt_succ_self d), Finset.filter_insert, if_pos hw]
        simp
      · have h2 : 0 < n - 1 := by omega
        have hf2 : 3 * (n - 1) + wslack (d + 1) ≤ f := by
          have := wslack_le (d + 1)
          omega
        have hstep : businessLoop (f + 1) d n = businessLoop f (d + 1) (n - 1) := by
          simp [businessLoop, hn0, hw]
        rw [hstep]
        obtain ⟨ha, hb, hc⟩ := ih (d + 1) (n - 1) h2 hf2
        refine ⟨by omega, hb, ?_⟩
        rw [Ioc_insert_bottom (by omega : d < businessLoop f (d + 1) (n - 1)),
          Finset.filter_insert, if_pos hw, Finset.card_insert_of_not_mem (by simp), hc]
        omega
    · have h56 : (d + 1) % 7 = 5 ∨ (d + 1) % 7 = 6 := by omega
      have hf2 : 3 * n + wslack (d + 1) ≤ f := by
        rcases h56 with h5 | h6
        · have e1 : wslack d = 2 := by
            unfold wslack; rw [if_pos h5]
          have e2 : wslack (d + 1) = 1 := by
            unfold wslack; rw [if_neg (by omega), if_pos (by omega)]
          rw [e1] at hf; rw [e2]; omega
        · have e1 : wslack d = 1 := by
            unfold wslack; rw [if_neg (by omega), if_pos h6]
          have e2 : wslack (d + 1) = 0 := by
            unfold wslack; rw [if_neg (by omega), if_neg (by omega)]
          rw [e1] at hf; rw [e2]; omega
      have hstep : businessLoop (f + 1) d n = businessLoop f (d + 1) n := by
        simp [businessLoop, hn0, hw]
      rw [hstep]
      obtain ⟨ha, hb, hc⟩ := ih (d + 1) n hn hf2
      refine ⟨by omega, hb, ?_⟩
      rw [Ioc_insert_bottom (by omega : d < businessLoop f (d + 1) n),
        Finset.filter_insert, if_neg hw, hc]

/-- `addBusinessDays start n` for positive `n`: strictly after `start`,
on a weekday, with exactly `n` weekdays in `(start, result]` — that is,
the `n`-th weekday strictly after `start`. -/
lemma addBusinessDays_spec (start n : Nat) (hn : 0 < n) :
    start < addBusinessDays start n ∧ addBusinessDays start n % 7 < 5 ∧
    ((Finset.Ioc start (addBusinessDays start n)).filter (fun x => x % 7 < 5)).card = n := by
  apply businessLoop_spec _ _ _ hn
  have := wslack_le start
  unfold addBusinessDays at *
  omega

lemma joinWith_cons (sep p : PText) (parts : List PText) (h : parts ≠ []) :
    joinWith sep (p :: parts) = p ++ sep ++ joinWith sep parts := by
  cases parts with
  | nil => exact absurd rfl h
  | cons q qs => rfl

/-- Every run of `pyReplaceAux` with enough fuel decomposes its input into
pattern-free parts separated by the pattern and returns those same parts
separated by the replacement: every occurrence is replaced. -/
lemma pyReplaceAux_spec : ∀ (fuel : Nat) (s pat rep : PText), s.length ≤ fuel → pat ≠ [] →
    ∃ parts : List PText, parts ≠ [] ∧ s = joinWith pat parts ∧
      (∀ p ∈ parts, ¬ pat <:+: p) ∧ pyReplaceAux fuel s pat rep = joinWith rep parts := by
  intro fuel
  induction fuel with
  | zero =>
    intro s pat rep hl hp
    have hs : s = [] := List.eq_nil_of_length_eq_zero (by omega)
    subst hs
    refine ⟨[[]], by simp, rfl, ?_, rfl⟩
    intro p hpm
    simp only [List.mem_singleton] at hpm
    subst hpm
    simpa [List.infix_nil] using hp
  | succ f ih =>
    intro s pat rep hl hp
    cases s with
    | nil =>
      refine ⟨[[]], by simp, rfl, ?_, rfl⟩
      intro p hpm
      simp only [List.mem_singleton] at hpm
      subst hpm
      simpa [List.infix_nil] using hp
    | cons c rest =>
      by_cases hpre : pat <+: (c :: rest)
      · have hstep : pyReplaceAux (f + 1) (c :: rest) pat rep =
            rep ++ pyReplaceAux f ((c :: rest).drop pat.length) pat rep := by
          simp [pyReplaceAux, hp, hpre]
        obtain ⟨t, ht⟩ := hpre
        have hdrop : (c :: rest).drop pat.length = t := by
          rw [← ht]; exact List.drop_left pat t
        have hlen : t.length ≤ f := by
          have hlt := congrArg List.length ht
          have hp1 : 0 < pat.length := List.length_pos.mpr hp
          simp only [List.length_append, List.length_cons] at hlt hl ⊢
          omega
        obtain ⟨parts, hne, hjoin, hfree, hout⟩ := ih t pat rep hlen hp
        refine ⟨[] :: parts, by simp, ?_, ?_, ?_⟩
        · rw [joinWith_cons pat [] parts hne, ← hjoin]
          simp [← ht]
        · intro p hpm
          rcases List.mem_cons.mp hpm with hp0 | hp0
          · subst hp0
            simpa [List.infix_nil] using hp
          · exact hfree p hp0
        · rw [hstep, hdrop, hout, joinWith_cons rep [] parts hne]
          simp
      · have hstep : pyReplaceAux (f + 1) (c :: rest) pat rep =
            c :: pyReplaceAux f rest pat rep := by
          simp [pyReplaceAux, hpre]
        have hlen : rest.length ≤ f := by
          simp only [List.length_cons] at hl
          omega
        obtain ⟨parts, hne, hjoin, hfree, hout⟩ := ih rest pat rep hlen hp
        cases parts with
        | nil => exact absurd rfl hne
        | cons p0 ptail =>
          have hp0pre : p0 <+: rest := by
            cases ptail with
            | nil =>
              simp only [joinWith] at hjoin
              exact hjoin ▸ List.prefix_rfl
            | cons q qs =>
              rw [joinWith_cons pat p0 (q :: qs) (by simp)] at hjoin
              rw [hjoin, List.append_assoc]
              exact List.prefix_append p0 _
          refine ⟨(c :: p0) :: ptail, by simp, ?_, ?_, ?_⟩
          · cases ptail with
            | nil =>
              simp only [joinWith] at hjoin ⊢
              rw [hjoin]
            | cons q qs =>
              rw [joinWith_cons pat (c :: p0) (q :: qs) (by simp),
                joinWith_cons pat p0 (q :: qs) (by simp)] at *
              rw [hjoin]
              simp
          · intro p hpm
            rcases List.mem_cons.mp hpm with hp0 | hp0
            · subst hp0
              intro hinf
              have hcp : c :: p0 <+: c :: rest := by
                obtain ⟨t2, ht2⟩ := hp0pre
                exact ⟨t2, by simp [← ht2]⟩
              rcases List.infix_cons_iff.mp hinf with hl2 | hr2
              · exact hpre (hl2.trans hcp)
              · exact hfree p0 (List.mem_cons_self p0 ptail) hr2
            · exact hfree p (List.mem_cons_of_mem p0 hp0)
          · rw [hstep, hout]
            cases ptail with
            | nil => simp [joinWith]
            | cons q qs =>
              rw [joinWith_cons rep (c :: p0) (q :: qs) (by simp),
                joinWith_cons rep p0 (q :: qs) (by simp)]
              simp

/-- `pyReplace` replaces every occurrence of a non-empty pattern. -/
lemma pyReplace_parts (s pat rep : PText) (hp : pat ≠ []) :
    ∃ parts : List PText, parts ≠ [] ∧ s = joinWith pat parts ∧
      (∀ p ∈ parts, ¬ pat <:+: p) ∧ pyReplace s pat rep = joinWith rep parts :=
  pyReplaceAux_spec s.length s pat rep le_rfl hp

/-- A paragraph containing none of the mapping's tokens is untouched. -/
lemma substPara_no_tokens : ∀ (m : List (PText × PText)) (s : PText),
    (∀ pr ∈ m, ¬ pr.1 <:+: s) → substPara m s = s := by
  intro m
  induction m with
  | nil => intro s _; rfl
  | cons pr rest ih =>
    intro s h
    simp only [substPara, List.foldl_cons]
    rw [if_neg (h pr (List.mem_cons_self pr rest))]
    exact ih s (fun pr2 hm => h pr2 (List.mem_cons_of_mem pr hm))

lemma alookup_aset_self : ∀ (m : List (String × String)) (k v : String),
    alookup (aset m k v) k = some v := by
  intro m
  induction m with
  | nil => intro k v; simp [aset, alookup]
  | cons kv rest ih =>
    intro k v
    obtain ⟨k2, w⟩ := kv
    by_cases h : k2 = k
    · subst h; simp [aset, alookup]
    · simp [aset, alookup, h, ih]

lemma string_eq_empty_of_data (s : String) (h : s.data = []) : s = "" := by
  cases s with
  | mk data => cases h; rfl

lemma pyIntDigits_of_no_digits (t : String) (d : Nat) (h : extractDigits t = "") :
    pyIntDigits t d = d := by
  unfold pyIntDigits
  rw [h]

/-! ## Claims -/

/-- C3: for every `n > 0`, the business-day branch of the date engine
returns a delivery date that is the `n`-th date strictly after
`current_date` whose weekday is Monday–Friday: the result is strictly
later than today (never today or earlier), lands on a weekday, and the
interval `(today, result]` contains exactly `n` weekdays — Saturdays and
Sundays never count. -/
theorem claim3_business_days (c : Clock) (n : Nat) (hn : 0 < n) :
    c.nowPacific < (date_builder c 0 0 n).2 ∧
    (date_builder c 0 0 n).2 % 7 < 5 ∧
    ((Finset.Ioc c.nowPacific ((date_builder c 0 0 n).2)).filter
      (fun x => x % 7 < 5)).card = n := by
  have h : (date_builder c 0 0 n).2 = addBusinessDays c.nowPacific n := by
    simp [date_builder, hn]
  rw [h]
  exact addBusinessDays_spec c.nowPacific n hn

/-- Witness for C3: two business days from a Friday (day 4). -/
theorem claim3_business_days_witness :
    0 < 2 ∧
    ((⟨4, 4⟩ : Clock).nowPacific < (date_builder ⟨4, 4⟩ 0 0 2).2 ∧
     (date_builder ⟨4, 4⟩ 0 0 2).2 % 7 < 5 ∧
     ((Finset.Ioc (⟨4, 4⟩ : Clock).nowPacific ((date_builder ⟨4, 4⟩ 0 0 2).2)).filter
       (fun x => x % 7 < 5)).card = 2) :=
  ⟨by decide, claim3_business_days ⟨4, 4⟩ 2 (by decide)⟩

/-- C4, counterexample: in `date_builder` the plain-days branch anchors
off the naive local today, not the Pacific-aware instant (first
conjunct), and in `_calculate_dates` the weeks branch anchors off the
Pacific-aware instant, not the naive local today (second conjunct) —
both against the claim's assignment of anchors. -/
theorem claim4_counterexample :
    (date_builder ⟨0, 1⟩ 5 0 0).2 ≠ (⟨0, 1⟩ : Clock).nowPacific + 5 ∧
    (calculate_dates "App" ⟨0, 40⟩ ["2 weeks"]).1.delivery_date ≠
      Delivery.onDate ((⟨0, 40⟩ : Clock).todayLocal + 7 * 2) := by
  constructor <;> decide

/-- C4, amended: in `main.date_builder` only the business-day branch
anchors off the timezone-aware Pacific now, while both the weeks branch
and the plain-days branch anchor off the naive local today;
`current_date` always comes from the Pacific now; and
`processing_data._calculate_dates` reads only the Pacific anchor, never
the naive local one (its result is unchanged by any local-today value). -/
theorem claim4_anchors (c : Clock) :
    (∀ n, 0 < n → date_builder c 0 0 n = (c.nowPacific, addBusinessDays c.nowPacific n)) ∧
    (∀ w, 0 < w → date_builder c 0 w 0 = (c.nowPacific, c.todayLocal + 7 * w)) ∧
    (∀ d, date_builder c d 0 0 = (c.nowPacific, c.todayLocal + d)) ∧
    (∀ (c2 : Clock) (letter_type : String) (stdin : List String),
      c.nowPacific = c2.nowPacific →
      calculate_dates letter_type c stdin = calculate_dates letter_type c2 stdin) := by
  refine ⟨?_, ?_, ?_, ?_⟩
  · intro n hn; simp [date_builder, hn]
  · intro w hw; simp [date_builder, hw]
  · intro d; simp [date_builder]
  · intro c2 letter_type stdin h
    simp only [calculate_dates, h]

set_option linter.unusedTactic false in
/-- C6: template selection is the deterministic table keyed on the
uppercased loan and letter types: the two concrete rows the claim names,
and in general the chosen file name is the uppercased loan type, `" - "`,
and the suffix of the fixed letter-type table (`letterSuffix`). -/
theorem claim6_template_table :
    templateName "7A" "Phase 1" = "7A - Phase 1 Engagement Letter" ++ ".docx" ∧
    templateName "504" "Unknown" = "504 - Environmental Engagement Letter" ++ ".docx" ∧
    ∀ loan_type letter_type : String,
      templateName loan_type letter_type =
        pyUpper loan_type ++ (" - " ++ (letterSuffix (pyUpper letter_type) ++ ".docx")) := by
  refine ⟨by decide, by decide, ?_⟩
  intro loan_type letter_type
  simp only [templateName, letterSuffix]
  split_ifs <;> first
    | (congr 1 <;> first | rfl | decide)
    | simp_all

/-- C7, counterexample: the duration parse of `main.input_builder` raises
instead of falling back to a default — a one-word answer hits an
`IndexError` and a non-numeric quantity a `ValueError` (both modelled as
`none`), so "date computation never raises" fails on that cited path. -/
theorem claim7_counterexample :
    parse_date_step ⟨0, 0⟩ "soon" = none ∧ parse_date_step ⟨0, 0⟩ "ten days" = none := by
  constructor <;> decide

/-- C7, amended: in `_calculate_dates` (a total function of its inputs)
the branch defaults are as documented — a business-day timeline with no
digit yields 10 business days, a weeks timeline with no digit yields 1
week, and any timeline matching neither unit token is treated as
calendar days with default quantity 7 — while the legacy
`main.input_builder` parse can fail (`claim7_counterexample`). -/
theorem claim7_duration_defaults (c : Clock) (letter_type : String) (stdin : List String)
    (timeline : String) (hlt : pyUpper letter_type ≠ "SEC")
    (ht : timeline = pyLower (pyStrip (stdin.headD ""))) :
    ((pyIn "bd" timeline || pyIn "business" timeline) = true → extractDigits timeline = "" →
      (calculate_dates letter_type c stdin).1.delivery_date =
        Delivery.onDate (addBusinessDays c.nowPacific 10)) ∧
    ((pyIn "bd" timeline || pyIn "business" timeline) = false → pyIn "week" timeline = true →
      extractDigits timeline = "" →
      (calculate_dates letter_type c stdin).1.delivery_date =
        Delivery.onDate (c.nowPacific + 7 * 1)) ∧
    ((pyIn "bd" timeline || pyIn "business" timeline) = false → pyIn "week" timeline = false →
      (calculate_dates letter_type c stdin).1.delivery_date =
        Delivery.onDate (c.nowPacific + pyIntDigits timeline 7)) := by
  refine ⟨?_, ?_, ?_⟩ <;> simp only [calculate_dates, if_neg hlt, ← ht]
  · intro h1 h2
    simp [h1, pyIntDigits_of_no_digits _ _ h2]
  · intro h1 h2 h3
    simp [h1, h2, pyIntDigits_of_no_digits _ _ h3]
  · intro h1 h2
    simp [h1, h2]

/-- Witness for C7: an unrecognized unit token is read as calendar days. -/
theorem claim7_duration_defaults_witness :
    (calculate_dates "App" ⟨0, 0⟩ ["whenever"]).1.delivery_date =
      Delivery.onDate ((⟨0, 0⟩ : Clock).nowPacific + pyIntDigits "whenever" 7) :=
  (claim7_duration_defaults ⟨0, 0⟩ "App" ["whenever"] "whenever"
    (by decide) (by decide)).2.2 (by decide) (by decide)

/-- C9, counterexample: the cited `main.input_builder` path for the
secondary letter sets the delivery placeholder to the literal
`'2 to 4 days'`, not `'N/A'`. -/
theorem claim9_counterexample :
    input_builder_dates ⟨0, 0⟩ "Sec" "10 bds" = some (0, Delivery.text "2 to 4 days") ∧
    Delivery.text "2 to 4 days" ≠ Delivery.na := by
  constructor <;> decide

/-- C9, amended: for a secondary-review letter `_calculate_dates`
short-circuits — it consumes no console input (so no duration is
requested), returns the literal `"N/A"` delivery value, and still takes
`current_date` from the Pacific-aware now — while the legacy
`main.input_builder` likewise requests no duration but sets the delivery
value to the text `'2 to 4 days'`. -/
theorem claim9_secondary (c : Clock) (letter_type : String) (stdin : List String)
    (h : pyUpper letter_type = "SEC") :
    calculate_dates letter_type c stdin = (⟨c.nowPacific, Delivery.na⟩, stdin) ∧
    ∀ date_step, input_builder_dates c "Sec" date_step =
      some (c.nowPacific, Delivery.text "2 to 4 days") := by
  constructor
  · simp [calculate_dates, h]
  · intro date_step
    simp [input_builder_dates]

/-- Witness for C9 at a lower-case letter type and non-empty stdin. -/
theorem claim9_secondary_witness :
    pyUpper "sec" = "SEC" ∧
    calculate_dates "sec" ⟨3, 9⟩ ["10 bds"] = (⟨3, Delivery.na⟩, ["10 bds"]) :=
  ⟨by decide, (claim9_secondary ⟨3, 9⟩ "sec" ["10 bds"] (by decide)).1⟩

/-- C10: the quantity of a timeline string is the concatenation of every
digit character anywhere in it (digit extraction distributes over string
concatenation and ignores position), the branch default is used exactly
when the string has no digit at all, and a timeline mentioning `2` and
`4` in separate words is read as quantity 24. -/
theorem claim10_digit_concatenation :
    (∀ s1 s2 : String, extractDigits (s1 ++ s2) = extractDigits s1 ++ extractDigits s2) ∧
    (∀ (t : String) (d1 d2 : Nat), extractDigits t ≠ "" → pyIntDigits t d1 = pyIntDigits t d2) ∧
    (∀ (t : String) (d : Nat), extractDigits t = "" → pyIntDigits t d = d) ∧
    extractDigits "2 days 4" = "24" ∧
    (calculate_dates "App" ⟨0, 0⟩ ["2 days 4"]).1.delivery_date = Delivery.onDate (0 + 24) := by
  refine ⟨?_, ?_, ?_, by decide, by decide⟩
  · intro s1 s2
    show String.mk ((s1 ++ s2).data.filter Char.isDigit) = _
    rw [String.data_append, List.filter_append]
    rfl
  · intro t d1 d2 h
    unfold pyIntDigits
    rcases he : (extractDigits t).data with _ | ⟨ch, cs⟩
    · exact absurd (string_eq_empty_of_data _ he) h
    · rfl
  · intro t d h
    exact pyIntDigits_of_no_digits t d h

lemma merge_fee_of_some (dates prop : List (String × String)) (f : String)
    (h : alookup dates "fee" = some f) : merge_fee dates prop = aset prop "fee" f := by
  unfold merge_fee
  rw [h]

/-- A concrete dual record with appraisal fee "500" and environmental
fee "750". -/
def demoDual : DualData :=
  ⟨"7a",
   [("first_name", "Ann")],
   [("current_date", "1/6/2025"), ("fee", "500")],
   [("first_name", "Eve")],
   [("current_date", "1/6/2025"), ("fee", "750")],
   [("loan_name", "ABC Property")],
   [("property_address", "1 Main St")]⟩

/-- C2, counterexample: the two sides do not get independent property
sub-records — `app_data["property"]`, `env_data["property"]` and
`dual_data["shared"]["property"]` are one dictionary, so after both
letters are generated its `fee` (the appraisal side's `property.fee`
included) is the environmental "750", not "500". -/
theorem claim2_counterexample :
    alookup (generate_dual_engagement_letters demoDual).shared_property_final "fee" =
      some "750" ∧ ("750" : String) ≠ "500" := by
  constructor <;> decide

/-- C2, amended: each side's fee is merged into the one shared property
dictionary immediately before that side's document is generated, so the
appraisal placeholder mapping carries the appraisal fee and the
environmental placeholder mapping the environmental fee, and
`loan_name` is identical across both; but the property sub-record is
shared, not independent — after both generations its `fee` is the
environmental side's. -/
theorem claim2_dual_fees (dd : DualData) (fa fe nm : String)
    (ha : alookup dd.app_dates "fee" = some fa)
    (he : alookup dd.env_dates "fee" = some fe)
    (hl : alookup dd.shared_loan "loan_name" = some nm) :
    alookup (generate_dual_engagement_letters dd).app_placeholders
      "\x7b\x7bfee\x7d\x7d" = some fa ∧
    alookup (generate_dual_engagement_letters dd).env_placeholders
      "\x7b\x7bfee\x7d\x7d" = some fe ∧
    alookup (generate_dual_engagement_letters dd).app_placeholders
      "\x7b\x7bloan_name\x7d\x7d" = some nm ∧
    alookup (generate_dual_engagement_letters dd).env_placeholders
      "\x7b\x7bloan_name\x7d\x7d" = some nm ∧
    alookup (generate_dual_engagement_letters dd).shared_property_final "fee" = some fe := by
  have e : generate_dual_engagement_letters dd =
      ⟨data_to_placeholders ⟨dd.loan_type, "APP", some dd.app_vendor, some dd.app_dates,
        some dd.shared_loan, some (aset dd.shared_property "fee" fa)⟩,
       data_to_placeholders ⟨dd.loan_type, "ENV", some dd.env_vendor, some dd.env_dates,
        some dd.shared_loan, some (aset (aset dd.shared_property "fee" fa) "fee" fe)⟩,
       aset (aset dd.shared_property "fee" fa) "fee" fe⟩ := by
    unfold generate_dual_engagement_letters
    simp only [merge_fee_of_some _ _ _ ha, merge_fee_of_some _ _ _ he]
  rw [e]
  refine ⟨?_, ?_, ?_, ?_, ?_⟩
  · show some (dget (aset dd.shared_property "fee" fa) "fee" "") = some fa
    simp [dget, alookup_aset_self]
  · show some (dget (aset (aset dd.shared_property "fee" fa) "fee" fe) "fee" "") = some fe
    simp [dget, alookup_aset_self]
  · show some (dget dd.shared_loan "loan_name" "") = some nm
    simp [dget, hl]
  · show some (dget dd.shared_loan "loan_name" "") = some nm
    simp [dget, hl]
  · exact alookup_aset_self _ _ _

/-- Witness for C2 at the concrete dual record. -/
theorem claim2_dual_fees_witness :
    alookup (generate_dual_engagement_letters demoDual).app_placeholders
      "\x7b\x7bfee\x7d\x7d" = some "500" ∧
    alookup (generate_dual_engagement_letters demoDual).env_placeholders
      "\x7b\x7bfee\x7d\x7d" = some "750" ∧
    alookup (generate_dual_engagement_letters demoDual).app_placeholders
      "\x7b\x7bloan_name\x7d\x7d" = some "ABC Property" ∧
    alookup (generate_dual_engagement_letters demoDual).env_placeholders
      "\x7b\x7bloan_name\x7d\x7d" = some "ABC Property" ∧
    alookup (generate_dual_engagement_letters demoDual).shared_property_final "fee" =
      some "750" :=
  claim2_dual_fees demoDual "500" "750" "ABC Property" (by decide) (by decide) (by decide)

/-- C8: at substitution time a missing key in a present sub-record maps
its placeholder to the documented default — the empty string everywhere
except `cdc_company` (`"N/A"`) and `item_to_send` (`"TBD"`) — for every
recognized placeholder of every sub-record. -/
theorem claim8_missing_field_defaults (lt le : String) (v d l p : List (String × String)) :
    (alookup v "first_name" = none →
      alookup (data_to_placeholders ⟨lt, le, some v, some d, some l, some p⟩) "\x7b\x7bcontact_first_name\x7d\x7d" = some "") ∧
    (alookup v "last_name" = none →
      alookup (data_to_placeholders ⟨lt, le, some v, some d, some l, some p⟩) "\x7b\x7bcontact_last_name\x7d\x7d" = some "") ∧
    (alookup v "company" = none →
      alookup (data_to_placeholders ⟨lt, le, some v, some d, some l, some p⟩) "\x7b\x7bcompany_name\x7d\x7d" = some "") ∧
    (alookup v "email" = none →
      alookup (data_to_placeholders ⟨lt, le, some v, some d, some l, some p⟩) "\x7b\x7bcontact_email\x7d\x7d" = some "") ∧
    (alookup d "current_date" = none →
      alookup (data_to_placeholders ⟨lt, le, some v, some d, some l, some p⟩) "\x7b\x7bdate\x7d\x7d" = some "") ∧
    (alookup d "delivery_date" = none →
      alookup (data_to_placeholders ⟨lt, le, some v, some d, some l, some p⟩) "\x7b\x7bdelivery_date\x7d\x7d" = some "") ∧
    (alookup l "loan_name" = none →
      alookup (data_to_placeholders ⟨lt, le, some v, some d, some l, some p⟩) "\x7b\x7bloan_name\x7d\x7d" = some "") ∧
    (alookup l "loan_number" = none →
      alookup (data_to_placeholders ⟨lt, le, some v, some d, some l, some p⟩) "\x7b\x7bloan_number\x7d\x7d" = some "") ∧
    (alookup l "cdc_company" = none →
      alookup (data_to_placeholders ⟨lt, le, some v, some d, some l, some p⟩) "\x7b\x7bcdc_company\x7d\x7d" = some "N/A") ∧
    (alookup p "property_address" = none →
      alookup (data_to_placeholders ⟨lt, le, some v, some d, some l, some p⟩) "\x7b\x7bproperty_address\x7d\x7d" = some "") ∧
    (alookup p "property_type" = none →
      alookup (data_to_placeholders ⟨lt, le, some v, some d, some l, some p⟩) "\x7b\x7bproperty_type\x7d\x7d" = some "") ∧
    (alookup p "sqft" = none →
      alookup (data_to_placeholders ⟨lt, le, some v, some d, some l, some p⟩) "\x7b\x7bsqft\x7d\x7d" = some "") ∧
    (alookup p "fee" = none →
      alookup (data_to_placeholders ⟨lt, le, some v, some d, some l, some p⟩) "\x7b\x7bfee\x7d\x7d" = some "") ∧
    (alookup p "property_contact_name" = none →
      alookup (data_to_placeholders ⟨lt, le, some v, some d, some l, some p⟩) "\x7b\x7bproperty_contact_name\x7d\x7d" = some "") ∧
    (alookup p "property_contact_phone" = none →
      alookup (data_to_placeholders ⟨lt, le, some v, some d, some l, some p⟩) "\x7b\x7bproperty_contact_phone\x7d\x7d" = some "") ∧
    (alookup p "item_to_send" = none →
      alookup (data_to_placeholders ⟨lt, le, some v, some d, some l, some p⟩) "\x7b\x7bitem_to_send\x7d\x7d" = some "TBD") := by
  refine ⟨?_, ?_, ?_, ?_, ?_, ?_, ?_, ?_, ?_, ?_, ?_, ?_, ?_, ?_, ?_, ?_⟩
  · intro h
    show some (dget v "first_name" "") = some ""
    simp [dget, h]
  · intro h
    show some (dget v "last_name" "") = some ""
    simp [dget, h]
  · intro h
    show some (dget v "company" "") = some ""
    simp [dget, h]
  · intro h
    show some (dget v "email" "") = some ""
    simp [dget, h]
  · intro h
    show some (dget d "current_date" "") = some ""
    simp [dget, h]
  · intro h
    show some (dget d "delivery_date" "") = some ""
    simp [dget, h]
  · intro h
    show some (dget l "loan_name" "") = some ""
    simp [dget, h]
  · intro h
    show some (dget l "loan_number" "") = some ""
    simp [dget, h]
  · intro h
    show some (dget l "cdc_company" "N/A") = some "N/A"
    simp [dget, h]
  · intro h
    show some (dget p "property_address" "") = some ""
    simp [dget, h]
  · intro h
    show some (dget p "property_type" "") = some ""
    simp [dget, h]
  · intro h
    show some (dget p "sqft" "") = some ""
    simp [dget, h]
  · intro h
    show some (dget p "fee" "") = some ""
    simp [dget, h]
  · intro h
    show some (dget p "property_contact_name" "") = some ""
    simp [dget, h]
  · intro h
    show some (dget p "property_contact_phone" "") = some ""
    simp [dget, h]
  · intro h
    show some (dget p "item_to_send" "TBD") = some "TBD"
    simp [dget, h]

/-- Witness for C8: an engagement record whose four sub-records are all
empty dictionaries. -/
theorem claim8_missing_field_defaults_witness :
    alookup (data_to_placeholders ⟨"7A", "APP", some [], some [], some [], some []⟩) "\x7b\x7bcontact_first_name\x7d\x7d" = some "" ∧
    alookup (data_to_placeholders ⟨"7A", "APP", some [], some [], some [], some []⟩) "\x7b\x7bcontact_last_name\x7d\x7d" = some "" ∧
    alookup (data_to_placeholders ⟨"7A", "APP", some [], some [], some [], some []⟩) "\x7b\x7bcompany_name\x7d\x7d" = some "" ∧
    alookup (data_to_placeholders ⟨"7A", "APP", some [], some [], some [], some []⟩) "\x7b\x7bcontact_email\x7d\x7d" = some "" ∧
    alookup (data_to_placeholders ⟨"7A", "APP", some [], some [], some [], some []⟩) "\x7b\x7bdate\x7d\x7d" = some "" ∧
    alookup (data_to_placeholders ⟨"7A", "APP", some [], some [], some [], some []⟩) "\x7b\x7bdelivery_date\x7d\x7d" = some "" ∧
    alookup (data_to_placeholders ⟨"7A", "APP", some [], some [], some [], some []⟩) "\x7b\x7bloan_name\x7d\x7d" = some "" ∧
    alookup (data_to_placeholders ⟨"7A", "APP", some [], some [], some [], some []⟩) "\x7b\x7bloan_number\x7d\x7d" = some "" ∧
    alookup (data_to_placeholders ⟨"7A", "APP", some [], some [], some [], some []⟩) "\x7b\x7bcdc_company\x7d\x7d" = some "N/A" ∧
    alookup (data_to_placeholders ⟨"7A", "APP", some [], some [], some [], some []⟩) "\x7b\x7bproperty_address\x7d\x7d" = some "" ∧
    alookup (data_to_placeholders ⟨"7A", "APP", some [], some [], some [], some []⟩) "\x7b\x7bproperty_type\x7d\x7d" = some "" ∧
    alookup (data_to_placeholders ⟨"7A", "APP", some [], some [], some [], some []⟩) "\x7b\x7bsqft\x7d\x7d" = some "" ∧
    alookup (data_to_placeholders ⟨"7A", "APP", some [], some [], some [], some []⟩) "\x7b\x7bfee\x7d\x7d" = some "" ∧
    alookup (data_to_placeholders ⟨"7A", "APP", some [], some [], some [], some []⟩) "\x7b\x7bproperty_contact_name\x7d\x7d" = some "" ∧
    alookup (data_to_placeholders ⟨"7A", "APP", some [], some [], some [], some []⟩) "\x7b\x7bproperty_contact_phone\x7d\x7d" = some "" ∧
    alookup (data_to_placeholders ⟨"7A", "APP", some [], some [], some [], some []⟩) "\x7b\x7bitem_to_send\x7d\x7d" = some "TBD" := by
  have h := claim8_missing_field_defaults "7A" "APP" [] [] [] []
  exact ⟨h.1 rfl,
    h.2.1 rfl,
    h.2.2.1 rfl,
    h.2.2.2.1 rfl,
    h.2.2.2.2.1 rfl,
    h.2.2.2.2.2.1 rfl,
    h.2.2.2.2.2.2.1 rfl,
    h.2.2.2.2.2.2.2.1 rfl,
    h.2.2.2.2.2.2.2.2.1 rfl,
    h.2.2.2.2.2.2.2.2.2.1 rfl,
    h.2.2.2.2.2.2.2.2.2.2.1 rfl,
    h.2.2.2.2.2.2.2.2.2.2.2.1 rfl,
    h.2.2.2.2.2.2.2.2.2.2.2.2.1 rfl,
    h.2.2.2.2.2.2.2.2.2.2.2.2.2.1 rfl,
    h.2.2.2.2.2.2.2.2.2.2.2.2.2.2.1 rfl,
    h.2.2.2.2.2.2.2.2.2.2.2.2.2.2.2 rfl⟩

/-- Two vendor rows that both survive the first-name filter "ann" and
the last-name refinement "smith". -/
def demoRows : List VendorRow :=
  [⟨"Ann", "Smith", "C1", "a@x", "App", none⟩,
   ⟨"Anna", "Smithe", "C2", "b@x", "App", none⟩]

/-- C1, counterexample: with two rows left after the last-name
refinement, `_autofill_vendor` does not signal failure and fall back to
manual entry — it returns the first row of the refined set
(`refined.iloc[0]`). -/
theorem claim1_counterexample :
    (last_name_refined (first_name_matches (filter_by_type demoRows "App") "ann")
      "smith").length = 2 ∧
    autofill_vendor_core demoRows "App" "ann" "smith" =
      some ⟨"Ann", "Smith", "C1", "a@x", "App", "N/A"⟩ := by
  constructor <;> decide

/-- C1, amended: on an ambiguous first-name match (more than one row),
a last-name refinement to exactly one row makes both resolvers return
that row, and a refinement to zero rows makes both signal failure and
fall back; but when more than one row remains after refinement, only
`main.autofill` signals failure — `_autofill_vendor` returns the first
row of the refined set. -/
theorem claim1_refinement (db : List VendorRow) (vendor_type first_name last_name : String)
    (h1 : pyUpper vendor_type ≠ "PHASE 1") (h2 : pyUpper vendor_type ≠ "PHASE 2")
    (hmany : 1 < (first_name_matches (filter_by_type db vendor_type) first_name).length) :
    ((last_name_refined (first_name_matches (filter_by_type db vendor_type) first_name)
        last_name).length = 1 →
      autofill_vendor_core db vendor_type first_name last_name =
        (last_name_refined (first_name_matches (filter_by_type db vendor_type) first_name)
          last_name).head?.map row_to_vendor ∧
      autofill_main_core db vendor_type first_name last_name =
        (last_name_refined (first_name_matches (filter_by_type db vendor_type) first_name)
          last_name).head?) ∧
    ((last_name_refined (first_name_matches (filter_by_type db vendor_type) first_name)
        last_name).length = 0 →
      autofill_vendor_core db vendor_type first_name last_name = none ∧
      autofill_main_core db vendor_type first_name last_name = none) ∧
    (1 < (last_name_refined (first_name_matches (filter_by_type db vendor_type) first_name)
        last_name).length →
      autofill_vendor_core db vendor_type first_name last_name =
        (last_name_refined (first_name_matches (filter_by_type db vendor_type) first_name)
          last_name).head?.map row_to_vendor ∧
      autofill_main_core db vendor_type first_name last_name = none) := by
  have hlt : ¬ (pyUpper vendor_type = "PHASE 1" ∨ pyUpper vendor_type = "PHASE 2") := by
    tauto
  set fm := first_name_matches (filter_by_type db vendor_type) first_name with hfm
  set rf := last_name_refined fm last_name with hrf
  have hv : autofill_vendor_core db vendor_type first_name last_name =
      (if rf.length = 0 then none else rf.head?.map row_to_vendor) := by
    simp only [autofill_vendor_core, if_neg hlt, ← hfm, ← hrf]
    rw [if_neg (by omega), if_neg (by omega)]
  have hm : autofill_main_core db vendor_type first_name last_name =
      (if rf.length = 1 then rf.head? else none) := by
    simp only [autofill_main_core, ← hfm, ← hrf]
    rw [if_neg (by omega), if_pos hmany]
  refine ⟨?_, ?_, ?_⟩ <;> intro hr
  · rw [hv, hm, if_neg (by omega), if_pos hr]
    exact ⟨rfl, rfl⟩
  · rw [hv, hm, if_pos hr, if_neg (by omega)]
    exact ⟨rfl, rfl⟩
  · rw [hv, hm, if_neg (by omega), if_neg (by omega)]
    exact ⟨rfl, rfl⟩

/-- Two vendor rows sharing a first-name fragment but refined to one by
the last name. -/
def demoRows2 : List VendorRow :=
  [⟨"Ann", "Smith", "C1", "a@x", "App", none⟩,
   ⟨"Anna", "Jones", "C2", "b@x", "App", some "West"⟩]

/-- Witness for C1: the ambiguous-then-unique path on concrete rows. -/
theorem claim1_refinement_witness :
    autofill_vendor_core demoRows2 "App" "an" "smith" =
      some ⟨"Ann", "Smith", "C1", "a@x", "App", "N/A"⟩ ∧
    autofill_main_core demoRows2 "App" "an" "smith" =
      some ⟨"Ann", "Smith", "C1", "a@x", "App", none⟩ := by
  have h := (claim1_refinement demoRows2 "App" "an" "smith"
    (by decide) (by decide) (by decide)).1 (by decide)
  exact ⟨h.1.trans (by decide), h.2.trans (by decide)⟩

/-- C5: substitution rewrites every paragraph-like region — the main
body, every section's header, the first-page header when present, every
section's footer, and every table cell's paragraphs — by applying the
full placeholder pass (`substPara`) to each paragraph's text
independently; a paragraph containing no token of the mapping is left
verbatim (so an unrecognized token causes no error and survives
untouched); and each single replacement rewrites every occurrence of the
token: the text splits into token-free parts separated by the token, and
the output is those same parts separated by the replacement. -/
theorem claim5_substitution (doc : Doc) (m : List (PText × PText)) :
    (replace_placeholders_in_document doc m).paragraphs =
      doc.paragraphs.map (substPara m) ∧
    (replace_placeholders_in_document doc m).sections =
      doc.sections.map (fun sec =>
        ⟨sec.header.map (substPara m),
         sec.firstPageHeader.map (fun ps => ps.map (substPara m)),
         sec.footer.map (substPara m)⟩) ∧
    (replace_placeholders_in_document doc m).tables =
      doc.tables.map (fun t =>
        t.map (fun row => row.map (fun cell => cell.map (substPara m)))) ∧
    (∀ s : PText, (∀ pr ∈ m, ¬ pr.1 <:+: s) → substPara m s = s) ∧
    (∀ (s pat rep : PText), pat ≠ [] →
      ∃ parts : List PText, parts ≠ [] ∧ s = joinWith pat parts ∧
        (∀ p ∈ parts, ¬ pat <:+: p) ∧ pyReplace s pat rep = joinWith rep parts) := by
  refine ⟨rfl, ?_, rfl, substPara_no_tokens m, fun s pat rep hp => pyReplace_parts s pat rep hp⟩
  simp only [replace_placeholders_in_document, List.map_map]
  rfl

/-- Witness for C5: a paragraph without the mapping's token is untouched. -/
theorem claim5_substitution_witness :
    substPara [("\x7b\x7bfee\x7d\x7d".data, "500".data)] "no tokens here".data =
      "no tokens here".data :=
  (claim5_substitution ⟨[], [], []⟩
    [("\x7b\x7bfee\x7d\x7d".data, "500".data)]).2.2.2.1 "no tokens here".data (by decide)
